import Mathlib

/-!
Verification development for the `yahoo_fin` stock-data library
(`src/yahoo_fin/stock_info.py`), a scraping/normalization pipeline for
financial-market data.  The Python source is shallowly embedded: pure
helpers become Lean functions, fallible paths return `Except`, the HTTP
transport and date-parsing collaborators are modelled as explicit inputs
(a response record, timestamps already in integer Unix seconds), and
pandas data frames become an explicit `Frame` structure.  Python floats
are modelled by exact rationals; the decimal subset of `float()` parsing
relevant to the library's inputs is made explicit in `parseDec`.
-/

namespace YahooFin

/-- A Python value as it flows through the numeric normalizer and frames:
either a float (modelled as an exact rational), a string, or NaN. -/
inductive PyVal where
  | num : ℚ → PyVal
  | str : String → PyVal
  | nan : PyVal
deriving DecidableEq, Repr

/-- Digits of a numeral read as a natural number. -/
def natOfDigits (l : List Char) : ℕ :=
  l.foldl (fun a c => 10 * a + (c.toNat - 48)) 0

/-- Unsigned decimal literal `digits [ '.' digits ]` read as a scaled
mantissa: `some (m, k)` denotes the value `m / 10 ^ k`. -/
def parseUDec (l : List Char) : Option (ℕ × ℕ) :=
  let intPart := l.takeWhile Char.isDigit
  let rest := l.dropWhile Char.isDigit
  match rest with
  | [] => if intPart.isEmpty then none else some (natOfDigits intPart, 0)
  | '.' :: rest2 =>
    let fracPart := rest2.takeWhile Char.isDigit
    let rest3 := rest2.dropWhile Char.isDigit
    if rest3.isEmpty then
      if intPart.isEmpty && fracPart.isEmpty then none
      else some (natOfDigits intPart * 10 ^ fracPart.length + natOfDigits fracPart,
                 fracPart.length)
    else none
  | _ => none

/-- Model of the Python `float(...)` collaborator on strings, restricted to
the decimal forms the library's inputs take: optional sign, then digits
with an optional single decimal point (`"12"`, `"12."`, `".5"`, `"3.5"`).
Exponents, whitespace, underscores and inf/nan spellings are outside the
modelled subset.  Returns `none` exactly when `float()` would raise. -/
def parseDec (s : String) : Option (ℤ × ℕ) :=
  match s.toList with
  | '-' :: rest => (parseUDec rest).map fun p => (-(p.1 : ℤ), p.2)
  | '+' :: rest => (parseUDec rest).map fun p => ((p.1 : ℤ), p.2)
  | l => (parseUDec l).map fun p => ((p.1 : ℤ), p.2)

/-- The rational value denoted by a scaled decimal mantissa. -/
def toRat (m : ℤ) (k : ℕ) : ℚ := m / 10 ^ k

/-- The float value of a string, when `float()` accepts it. -/
def parseFloat (s : String) : Option ℚ :=
  (parseDec s).map fun p => toRat p.1 p.2

/-- Embeds `force_float` (stock_info.py lines 47-52): `try: return
float(elt) except: return elt`. -/
def force_float (elt : String) : PyVal :=
  match parseFloat elt with
  | some q => PyVal.num q
  | none => PyVal.str elt

/-- Python `s.strip(c)` for a single-character argument: removes every
leading and trailing occurrence of `c` (interior occurrences stay). -/
def pyStrip (s : String) (c : Char) : String :=
  ⟨((s.toList.dropWhile (· = c)).reverse.dropWhile (· = c)).reverse⟩

/-- Python `c in s` for a single-character needle. -/
def pyContains (s : String) (c : Char) : Bool :=
  s.toList.contains c

/-- Python `str * n`: the string repeated `n` times. -/
def pyRepeat (s : String) (n : ℕ) : String :=
  ⟨(List.replicate n s.toList).flatten⟩

/-- Python `x * n` for the polymorphic result of `force_float`:
float times int multiplies, string times int repeats. -/
def pyMulInt : PyVal → ℕ → PyVal
  | PyVal.num q, n => PyVal.num (q * n)
  | PyVal.str s, n => PyVal.str (pyRepeat s n)
  | PyVal.nan, _ => PyVal.nan

/-- Embeds `_convert_to_numeric` (stock_info.py lines 54-64): if `"M" in s`
strip the letter and multiply by 1_000_000; else if `"B" in s` strip and
multiply by 1_000_000_000; else base coercion. -/
def convert_to_numeric (s : String) : PyVal :=
  if pyContains s 'M' then pyMulInt (force_float (pyStrip s 'M')) 1000000
  else if pyContains s 'B' then pyMulInt (force_float (pyStrip s 'B')) 1000000000
  else force_float s

example : convert_to_numeric "12.3M" = PyVal.num (toRat 123 1 * ((1000000 : ℕ) : ℚ)) := rfl
example : toRat 123 1 * ((1000000 : ℕ) : ℚ) = 12300000 := by norm_num [toRat]
example : convert_to_numeric "abc" = PyVal.str "abc" := rfl
example : convert_to_numeric "3.5" = PyVal.num (toRat 35 1) := rfl
example : convert_to_numeric "M12" = PyVal.num (toRat 12 0 * ((1000000 : ℕ) : ℚ)) := rfl
example : convert_to_numeric "12M3" = PyVal.str (pyRepeat "12M3" 1000000) := rfl

/-- A raised Python exception, as surfaced by the library's fallible
paths: `AssertionError(payload)` or `KeyError(key)`. -/
inductive PyErr where
  | assertionError : String → PyErr
  | keyError : String → PyErr
deriving DecidableEq, Repr

/-- A pandas data frame, row-major: column labels, row-index labels, the
rows themselves, and the (optional) name of the row index. -/
structure Frame where
  cols : List PyVal
  idx : List PyVal
  data : List (List PyVal)
  idxName : Option String
deriving DecidableEq, Repr

/-- `pd.DataFrame()`. -/
def emptyFrame : Frame := ⟨[], [], [], none⟩

/-- `frame.reset_index()` followed by renaming column `"index"` to
`"date"`, as `get_data` / `get_dividends` / `get_splits` do when
`index_as_date` is false: the index becomes a leading `"date"` column and
the new index is the default range index. -/
def resetIndexToDate (f : Frame) : Frame :=
  { cols := PyVal.str "date" :: f.cols
    idx := (List.range f.idx.length).map fun i => PyVal.num i
    data := f.idx.zipWith (fun d row => d :: row) f.data
    idxName := none }

/-- `pd.to_datetime(t, unit="s").floor("d")` on a Unix-seconds stamp:
the intra-day component is zeroed. -/
def floorDay (t : ℕ) : ℕ := t - t % 86400

/-- Python `ticker.upper()`, character by character. -/
def pyUpper (s : String) : String := ⟨s.toList.map Char.toUpper⟩

def base_url : String := "https://query1.finance.yahoo.com/v8/finance/chart/"

/-- The query-parameter set produced by `build_url`. -/
structure ChartParams where
  period1 : ℤ
  period2 : ℤ
  interval : String
  events : String
deriving DecidableEq, Repr

/-- Embeds `build_url` (stock_info.py lines 24-44).  The
`pd.Timestamp(...).timestamp()` date-parsing collaborator is modelled by
taking `start_date` / `end_date` already as integer Unix seconds, and the
current time (`pd.Timestamp("now")`) as the explicit argument `now` — the
function's one time dependency.  It performs no network I/O: it is a pure
function of these inputs. -/
def build_url (ticker : String) (start_date end_date : Option ℤ)
    (interval : String) (now : ℤ) : String × ChartParams :=
  let end_seconds := match end_date with
    | none => now
    | some d => d
  let start_seconds := match start_date with
    | none => (7223400 : ℤ)
    | some d => d
  let site := base_url ++ ticker
  (site, { period1 := start_seconds, period2 := end_seconds,
           interval := interval.toLower, events := "div,splits" })

/-- The transport collaborator's view of one HTTP response: `resp.ok` and
the decoded JSON body `resp.json()` that an error path would surface
(kept abstract as a string). -/
structure HttpResp where
  ok : Bool
  errBody : String
deriving DecidableEq, Repr

/-- The `chart.result[0]` payload of a successful price-history response:
`indicators.quote[0]` (open/high/low/close/volume),
`indicators.adjclose[0].adjclose`, and the `timestamp` array. -/
structure ChartData where
  opn : List ℚ
  high : List ℚ
  low : List ℚ
  close : List ℚ
  volume : List ℚ
  adjclose : List ℚ
  timestamp : List ℕ
deriving Repr

/-- Positional read of a numeric column, `NaN` past the end (pandas
aligns the columns positionally). -/
def colAt (l : List ℚ) (i : ℕ) : PyVal :=
  match l.get? i with
  | some q => PyVal.num q
  | none => PyVal.nan

/-- The frame shaped by `get_data` at a non-minute interval: adjclose is
included, the index is the day-floored timestamps, the columns are
reordered to the fixed list, and the uppercased ticker is appended. -/
def shapeChartDaily (ticker : String) (chart : ChartData) : Frame :=
  { cols := [PyVal.str "open", PyVal.str "high", PyVal.str "low", PyVal.str "close",
             PyVal.str "adjclose", PyVal.str "volume", PyVal.str "ticker"]
    idx := chart.timestamp.map fun t => PyVal.num (floorDay t)
    data := (List.range chart.timestamp.length).map fun i =>
      [colAt chart.opn i, colAt chart.high i, colAt chart.low i, colAt chart.close i,
       colAt chart.adjclose i, colAt chart.volume i, PyVal.str (pyUpper ticker)]
    idxName := none }

/-- The frame shaped by `get_data` at the `"1m"` interval: no adjclose,
and the index keeps the raw timestamps. -/
def shapeChartMinute (ticker : String) (chart : ChartData) : Frame :=
  { cols := [PyVal.str "open", PyVal.str "high", PyVal.str "low", PyVal.str "close",
             PyVal.str "volume", PyVal.str "ticker"]
    idx := chart.timestamp.map fun t => PyVal.num t
    data := (List.range chart.timestamp.length).map fun i =>
      [colAt chart.opn i, colAt chart.high i, colAt chart.low i, colAt chart.close i,
       colAt chart.volume i, PyVal.str (pyUpper ticker)]
    idxName := none }

/-- Embeds `get_data` (stock_info.py lines 67-123): validate the interval,
fail on a non-success response with the upstream body, then shape the
frame — at non-minute intervals adjclose is added and the index is
day-floored; at `"1m"` the raw timestamps are kept; the uppercased ticker
column is appended; `index_as_date = false` moves the index into a
`"date"` column. -/
def get_data (ticker : String) (resp : HttpResp) (chart : ChartData)
    (index_as_date : Bool) (interval : String) : Except PyErr Frame :=
  if interval ∉ (["1d", "1wk", "1mo", "1m"] : List String) then
    Except.error (PyErr.assertionError "interval must be of of '1d', '1wk', '1mo', or '1m'")
  else if resp.ok = false then
    Except.error (PyErr.assertionError resp.errBody)
  else
    let frame : Frame :=
      if interval ≠ "1m" then shapeChartDaily ticker chart
      else shapeChartMinute ticker chart
    if index_as_date then Except.ok frame
    else Except.ok (resetIndexToDate frame)

/-- One entry of the `events.dividends` payload: the dictionary key (a
Unix-seconds stamp) and the inner `{amount, date}` record. -/
structure DivEntry where
  key : ℕ
  amount : ℚ
  date : ℕ
deriving DecidableEq, Repr

/-- One entry of the `events.splits` payload: the dictionary key and the
inner `{date, numerator, denominator, splitRatio}` record. -/
structure SplitEntry where
  key : ℕ
  date : ℕ
  numerator : ℚ
  denominator : ℚ
  splitRatio : String
deriving DecidableEq, Repr

/-- The optional `events` object of `chart.result[0]`, whose `dividends`
and `splits` keys may each be present or absent. -/
structure EventsDict where
  dividends : Option (List DivEntry)
  splits : Option (List SplitEntry)
deriving Repr

/-- A corporate-actions response: transport status, the error body a
failure path would surface, and the optional `events` object. -/
structure ActionsResp where
  ok : Bool
  errBody : String
  events : Option EventsDict
deriving Repr

/-- Stable insertion sort by a natural-number key (`frame.sort_index()`
after the index has been day-floored). -/
def insertByKey (key : α → ℕ) (x : α) : List α → List α
  | [] => [x]
  | y :: ys => if key x ≤ key y then x :: y :: ys else y :: insertByKey key x ys

def sortByKey (key : α → ℕ) : List α → List α
  | [] => []
  | x :: xs => insertByKey key x (sortByKey key xs)

/-- The frame shaping of `get_dividends` on a present payload: transpose
the dict-of-dicts, day-floor and sort the index, append the uppercased
ticker, drop the `date` column, rename `amount` to `dividend`, and
optionally reset the index into a `"date"` column. -/
def shapeDividends (ticker : String) (divs : List DivEntry)
    (index_as_date : Bool) : Frame :=
  let sorted := sortByKey (fun d => floorDay d.key) divs
  let f : Frame :=
    { cols := [PyVal.str "dividend", PyVal.str "ticker"]
      idx := sorted.map fun d => PyVal.num (floorDay d.key)
      data := sorted.map fun d => [PyVal.num d.amount, PyVal.str (pyUpper ticker)]
      idxName := none }
  if index_as_date then f else resetIndexToDate f

/-- The frame shaping of `get_splits` on a present payload: after
transposing, day-flooring, sorting, and appending the ticker, the
`date`, `denominator` and `numerator` columns are dropped, leaving
`splitRatio` and `ticker`. -/
def shapeSplits (ticker : String) (sps : List SplitEntry)
    (index_as_date : Bool) : Frame :=
  let sorted := sortByKey (fun s => floorDay s.key) sps
  let f : Frame :=
    { cols := [PyVal.str "splitRatio", PyVal.str "ticker"]
      idx := sorted.map fun s => PyVal.num (floorDay s.key)
      data := sorted.map fun s => [PyVal.str s.splitRatio, PyVal.str (pyUpper ticker)]
      idxName := none }
  if index_as_date then f else resetIndexToDate f

/-- Embeds `get_dividends` (stock_info.py lines 830-879): a non-success
response returns `pd.DataFrame()` (lines 842-843); an absent `"events"`
key or absent `"dividends"` key likewise returns `pd.DataFrame()`
(lines 850-851); otherwise the payload is shaped. -/
def get_dividends (ticker : String) (resp : ActionsResp)
    (index_as_date : Bool) : Except PyErr Frame :=
  if resp.ok = false then Except.ok emptyFrame
  else
    match resp.events with
    | none => Except.ok emptyFrame
    | some ev =>
      match ev.dividends with
      | none => Except.ok emptyFrame
      | some divs => Except.ok (shapeDividends ticker divs index_as_date)

/-- Embeds `get_splits` (stock_info.py lines 883-925): a non-success
response raises `AssertionError(resp.json())` (lines 895-896); an absent
`"events"` key raises `KeyError` at the subscript
`result[0]['events']`; an absent `"splits"` key raises the
`AssertionError` of lines 903-904; otherwise the payload is shaped. -/
def get_splits (ticker : String) (resp : ActionsResp)
    (index_as_date : Bool) : Except PyErr Frame :=
  if resp.ok = false then Except.error (PyErr.assertionError resp.errBody)
  else
    match resp.events with
    | none => Except.error (PyErr.keyError "events")
    | some ev =>
      match ev.splits with
      | none => Except.error (PyErr.assertionError
          "There is no data available on stock splits, or none have occured")
      | some sps => Except.ok (shapeSplits ticker sps index_as_date)

/-- Whether a call outcome is a raised exception. -/
def isFatal : Except PyErr Frame → Bool
  | Except.error _ => true
  | Except.ok _ => false

/-!
The raw/formatted JSON repair of `_parse_json` (stock_info.py lines
405-406):

* `new_data = json.dumps(data).replace('\x7b\x7d', 'null')`
* `new_data = re.sub(r'\\\x7b[\'|\"]raw[\'|\"]:(.*?),(.*?)\\\x7d', r'\\1', new_data)`

`str.replace` is a left-to-right non-overlapping scan; `re.sub` finds
leftmost matches, with both groups non-greedy and `.` not matching a
newline, substitutes the first group, and resumes after the match.
-/

/-- Left-to-right non-overlapping replacement of `"\x7b\x7d"` by `"null"`. -/
def replaceCurly : List Char → List Char
  | [] => []
  | '\x7b' :: '\x7d' :: rest => 'n' :: 'u' :: 'l' :: 'l' :: replaceCurly rest
  | c :: rest => c :: replaceCurly rest

/-- Whether `"\x7b\x7d"` occurs as a substring. -/
def hasCurlyPair : List Char → Bool
  | [] => false
  | '\x7b' :: '\x7d' :: _ => true
  | _ :: rest => hasCurlyPair rest

/-- One of the characters matched by the regex class `['|"]`. -/
def isRawQuote (c : Char) : Bool := c = '\'' || c = '|' || c = '"'

/-- Second non-greedy group: the shortest run of non-newline characters
followed by a literal `'\x7d'`; returns the group and the remainder after
the brace, or `none` when a newline or the end intervenes. -/
def findG2 : List Char → Option (List Char × List Char)
  | [] => none
  | c :: rest =>
    if c = '\x7d' then some ([], rest)
    else if c = '\n' then none
    else (findG2 rest).map fun p => (c :: p.1, p.2)

/-- First non-greedy group with backtracking: the shortest run of
non-newline characters followed by a `','` after which the second group
matches; returns group one and the remainder after the whole match. -/
def findG1 : List Char → Option (List Char × List Char)
  | [] => none
  | c :: rest =>
    if c = ',' then
      match findG2 rest with
      | some p => some ([], p.2)
      | none => (findG1 rest).map fun p => (c :: p.1, p.2)
    else if c = '\n' then none
    else (findG1 rest).map fun p => (c :: p.1, p.2)

/-- Attempt the pattern at the head of the list: on success, the text the
match is replaced by (group one) and the remainder after the match. -/
def matchRawAt : List Char → Option (List Char × List Char)
  | '\x7b' :: q1 :: 'r' :: 'a' :: 'w' :: q2 :: ':' :: tail =>
    if isRawQuote q1 && isRawQuote q2 then findG1 tail else none
  | _ => none

/-- The substitution scan, fuelled by the input length (each step consumes
at least one character, so the fuel never runs out when it starts at the
length of the list). -/
def rawSubFuel : ℕ → List Char → List Char
  | 0, l => l
  | _ + 1, [] => []
  | fuel + 1, c :: rest =>
    match matchRawAt (c :: rest) with
    | some p => p.1 ++ rawSubFuel fuel p.2
    | none => c :: rawSubFuel fuel rest

def rawSub (l : List Char) : List Char := rawSubFuel l.length l

/-- Whether the pattern matches anywhere in the list. -/
def hasRawMatch : List Char → Bool
  | [] => false
  | c :: rest => (matchRawAt (c :: rest)).isSome || hasRawMatch rest

/-- The two-line repair itself: `'\x7b\x7d'` → `'null'`, then the regex
substitution. -/
def repairJson (s : String) : String :=
  ⟨rawSub (replaceCurly s.toList)⟩

/-- `json.dumps` rendering of the nested payload
`\x7b"raw": \x7b"raw": 1, "a": 2\x7d, "b": 3\x7d`: a raw-wrapper whose value is
itself a raw-wrapper. -/
def nestedRawJson : String :=
  "\x7b\"raw\": \x7b\"raw\": 1, \"a\": 2\x7d, \"b\": 3\x7d"

example : repairJson nestedRawJson = " \x7b\"raw\": 1, \"b\": 3\x7d" := by decide
example : repairJson (repairJson nestedRawJson) = "  1" := by decide
example : hasRawMatch (repairJson nestedRawJson).toList = true := by decide

/-- A Period Record as `_parse_table` receives it: a mapping from field
name to (repaired) value. -/
abbrev Record := List (String × PyVal)

/-- Column labels in order of first appearance across the records, as
`pd.DataFrame(list_of_dicts)` assigns them. -/
def dedupFirst (seen : List String) : List String → List String
  | [] => []
  | c :: rest =>
    if c ∈ seen then dedupFirst seen rest
    else c :: dedupFirst (c :: seen) rest

/-- A record's value under a field name, `NaN` when absent. -/
def lookupField (r : Record) (c : String) : PyVal :=
  match r.find? (fun p => p.1 = c) with
  | some p => p.2
  | none => PyVal.nan

/-- `pd.DataFrame(records)`: columns in order of first appearance, the
default range index, rows aligned by column name. -/
def mkFrameOfRecords (records : List Record) : Frame :=
  let cols := dedupFirst [] (records.flatMap fun r => r.map Prod.fst)
  { cols := cols.map PyVal.str
    idx := (List.range records.length).map fun i => PyVal.num i
    data := records.map fun r => cols.map (lookupField r)
    idxName := none }

/-- `df.empty`: true when either axis has length zero. -/
def frameEmpty (f : Frame) : Bool := f.idx.isEmpty || f.cols.isEmpty

/-- `del df[c]`: drops the column positionally, raising `KeyError` when
the label is absent. -/
def delColumn (f : Frame) (c : String) : Except PyErr Frame :=
  if PyVal.str c ∈ f.cols then
    let j := f.cols.indexOf (PyVal.str c)
    Except.ok { f with cols := f.cols.eraseIdx j
                       data := f.data.map fun row => row.eraseIdx j }
  else Except.error (PyErr.keyError c)

/-- `df.set_index(c)`: the column becomes the index (which takes the
column's name), raising `KeyError` when the label is absent. -/
def setIndexCol (f : Frame) (c : String) : Except PyErr Frame :=
  if PyVal.str c ∈ f.cols then
    let j := f.cols.indexOf (PyVal.str c)
    Except.ok { cols := f.cols.eraseIdx j
                idx := f.data.map fun row => (row.get? j).getD PyVal.nan
                data := f.data.map fun row => row.eraseIdx j
                idxName := some c }
  else Except.error (PyErr.keyError c)

/-- `df.transpose()`: labels swap axes and the data matrix is transposed.
(The index name does not survive onto the new frame.) -/
def transposeFrame (f : Frame) : Frame :=
  { cols := f.idx
    idx := f.cols
    data := (List.range f.cols.length).map fun j =>
      f.data.map fun row => (row.get? j).getD PyVal.nan
    idxName := none }

/-- Embeds `_parse_table` (stock_info.py lines 413-428): build the frame
from the records; an empty frame is returned as-is with no column
operation attempted; otherwise drop `maxAge`, index by `endDate`
(datetimes are represented by their Unix seconds), transpose, and name
the row index `Breakdown`. -/
def parse_table (json_info : List Record) : Except PyErr Frame :=
  let df := mkFrameOfRecords json_info
  if frameEmpty df then Except.ok df
  else do
    let df1 ← delColumn df "maxAge"
    let df2 ← setIndexCol df1 "endDate"
    let df3 := transposeFrame df2
    Except.ok { df3 with idxName := some "Breakdown" }

/-- One page of the paginated earnings-calendar endpoint, as
`get_earnings_for_date` reads it: the upstream-reported total count
(`ScreenerCriteriaStore.meta.total`) and this page's rows
(`ScreenerResultsStore.results.rows`). -/
structure EarningsPage where
  total : ℕ
  rows : List String
deriving DecidableEq, Repr

/-- Embeds the recursion of `get_earnings_for_date` (stock_info.py lines
1007-1039) over an oracle `pages` mapping an offset to the fetched page
(the network fetch `_parse_earnings_json` is the delegated collaborator).
The recursion itself is not structurally bounded — its termination
depends on the upstream-reported counts — so it is fuelled; `none` means
the fuel ran out.  The result carries the collected rows and the number
of recursive calls made below the entry call. -/
def get_earnings_for_date (pages : ℕ → EarningsPage) :
    ℕ → ℕ → ℕ → Option (List String × ℕ)
  | 0, _, _ => none
  | fuel + 1, offset, count =>
    if offset ≥ count then some ([], 0)
    else
      let page := pages offset
      match get_earnings_for_date pages fuel (offset + 100) page.total with
      | none => none
      | some p => some (page.rows ++ p.1, p.2 + 1)

/-- A corporate-actions response whose transport failed. -/
def failedResp : ActionsResp := ⟨false, "upstream error body", none⟩

/-- A successful corporate-actions response whose `events` object lacks
both the `dividends` and the `splits` keys. -/
def absentEventsResp : ActionsResp := ⟨true, "", some ⟨none, none⟩⟩

/-- A one-bar chart payload whose single timestamp (90000 s) falls one
hour into 1970-01-02. -/
def exChart : ChartData :=
  { opn := [1], high := [2], low := [1], close := [2], volume := [3], adjclose := [2]
    timestamp := [90000] }

/-- The frame `get_data` shapes from `exChart` at a daily interval for
ticker `"aapl"`. -/
def exFrame : Frame :=
  { cols := [PyVal.str "open", PyVal.str "high", PyVal.str "low", PyVal.str "close",
             PyVal.str "adjclose", PyVal.str "volume", PyVal.str "ticker"]
    idx := [PyVal.num ((86400 : ℕ) : ℚ)]
    data := [[PyVal.num 1, PyVal.num 2, PyVal.num 1, PyVal.num 2, PyVal.num 2, PyVal.num 3,
              PyVal.str "AAPL"]]
    idxName := none }

/-- An earnings-page oracle that reports a total count of 100 at every
offset. -/
def constPages : ℕ → EarningsPage := fun _ => ⟨100, ["AAPL"]⟩

/-!  Helper lemmas. -/

theorem dropWhile_eq_self_of_not_mem {l : List Char} {c : Char} (h : c ∉ l) :
    l.dropWhile (· = c) = l := by
  cases l with
  | nil => rfl
  | cons a rest =>
    have ha : ¬(a = c) := fun hac => h (hac ▸ List.mem_cons_self a rest)
    exact List.dropWhile_cons_of_neg (by simpa using ha)

theorem pyStrip_push (s : String) (c : Char) (h : c ∉ s.toList) :
    pyStrip (s.push c) c = s := by
  obtain ⟨l⟩ := s
  have hl : (String.mk l).toList = l := rfl
  rw [hl] at h
  have hpush : (String.mk l).push c = String.mk (l ++ [c]) := rfl
  rw [hpush]
  unfold pyStrip
  cases l with
  | nil => simp
  | cons a rest =>
    have ha : ¬(a = c) := fun hac => h (hac ▸ List.mem_cons_self a rest)
    have h1 : ((String.mk (a :: rest ++ [c])).toList).dropWhile (· = c) =
        a :: rest ++ [c] := List.dropWhile_cons_of_neg (by simpa using ha)
    rw [h1]
    have h2 : (a :: rest ++ [c]).reverse = c :: (a :: rest).reverse := by
      simp
    rw [h2]
    have h3 : (c :: (a :: rest).reverse).dropWhile (· = c) =
        ((a :: rest).reverse).dropWhile (· = c) :=
      List.dropWhile_cons_of_pos (by simp)
    have h4 : c ∉ (a :: rest).reverse := by
      rw [List.mem_reverse]
      exact h
    rw [h3, dropWhile_eq_self_of_not_mem h4, List.reverse_reverse]

theorem pyContains_push (s : String) (c : Char) : pyContains (s.push c) c = true := by
  obtain ⟨l⟩ := s
  have : (String.mk (l ++ [c])).toList = l ++ [c] := rfl
  simp [pyContains, String.push, this]

theorem replaceCurly_eq_self (l : List Char) (h : hasCurlyPair l = false) :
    replaceCurly l = l := by
  induction l using replaceCurly.induct with
  | case1 => rfl
  | case2 rest ih => simp [hasCurlyPair] at h
  | case3 c rest h1 ih =>
    rw [hasCurlyPair.eq_3 c rest h1] at h
    rw [replaceCurly.eq_3 c rest h1, ih h]

theorem rawSubFuel_eq_self (n : ℕ) (l : List Char) (h : hasRawMatch l = false) :
    rawSubFuel n l = l := by
  induction n generalizing l with
  | zero => rfl
  | succ n ih =>
    cases l with
    | nil => rfl
    | cons c rest =>
      rw [hasRawMatch] at h
      rw [rawSubFuel]
      cases hm : matchRawAt (c :: rest) with
      | some p => simp [hm] at h
      | none =>
        simp only [hm, Option.isSome_none, Bool.false_or] at h
        exact congrArg (List.cons c) (ih rest h)

/-!  The claims. -/

/-- Claim C1: when the corporate-actions payload's `events` object lacks
the `dividends` key, `get_dividends` returns an empty table, while when
it lacks the `splits` key, `get_splits` raises a fatal `AssertionError`;
both hold for every ticker, response and `index_as_date` mode reaching
that point — the asymmetry is preserved. -/
theorem divergent_absence (ticker : String) (resp : ActionsResp) (ev : EventsDict)
    (iad : Bool) (hok : resp.ok = true) (hev : resp.events = some ev) :
    (ev.dividends = none → get_dividends ticker resp iad = Except.ok emptyFrame) ∧
    (ev.splits = none → get_splits ticker resp iad = Except.error (PyErr.assertionError
      "There is no data available on stock splits, or none have occured")) := by
  constructor
  · intro hd
    simp [get_dividends, hok, hev, hd]
  · intro hs
    simp [get_splits, hok, hev, hs]

/-- Witness for C1 at a concrete successful response whose `events`
object has neither key. -/
theorem divergent_absence_witness :
    absentEventsResp.ok = true ∧ absentEventsResp.events = some ⟨none, none⟩ ∧
    get_dividends "AAPL" absentEventsResp true = Except.ok emptyFrame ∧
    get_splits "AAPL" absentEventsResp true = Except.error (PyErr.assertionError
      "There is no data available on stock splits, or none have occured") :=
  ⟨rfl, rfl,
    (divergent_absence "AAPL" absentEventsResp ⟨none, none⟩ true rfl rfl).1 rfl,
    (divergent_absence "AAPL" absentEventsResp ⟨none, none⟩ true rfl rfl).2 rfl⟩

/-- Claim C2 counterexample: a non-success HTTP response is NOT fatal in
`get_dividends` — it returns `pd.DataFrame()` (stock_info.py lines
842-843) instead of raising, so the claimed uniform transport-failure
convention fails at this concrete input. -/
theorem transport_failure_counterexample :
    failedResp.ok = false ∧
    get_dividends "AAPL" failedResp true = Except.ok emptyFrame ∧
    isFatal (get_dividends "AAPL" failedResp true) = false :=
  ⟨rfl, rfl, rfl⟩

/-- Claim C2 as amended: on a non-success HTTP response, `get_data` and
`get_splits` raise `AssertionError(resp.json())`, surfacing the upstream
error payload with no retry; `get_dividends` instead swallows the failure
and returns an empty table. -/
theorem transport_failure (ticker interval : String) (resp : HttpResp)
    (aresp : ActionsResp) (chart : ChartData) (iad : Bool)
    (hiv : interval ∈ (["1d", "1wk", "1mo", "1m"] : List String))
    (h1 : resp.ok = false) (h2 : aresp.ok = false) :
    get_data ticker resp chart iad interval =
      Except.error (PyErr.assertionError resp.errBody) ∧
    get_splits ticker aresp iad = Except.error (PyErr.assertionError aresp.errBody) ∧
    get_dividends ticker aresp iad = Except.ok emptyFrame := by
  refine ⟨?_, ?_, ?_⟩
  · simp [get_data, hiv, h1]
  · simp [get_splits, h2]
  · simp [get_dividends, h2]

/-- Witness for the amended C2 at concrete failed responses. -/
theorem transport_failure_witness :
    ("1d" ∈ (["1d", "1wk", "1mo", "1m"] : List String)) ∧
    (HttpResp.mk false "err").ok = false ∧ failedResp.ok = false ∧
    get_data "AAPL" ⟨false, "err"⟩ exChart true "1d" =
      Except.error (PyErr.assertionError "err") ∧
    get_splits "AAPL" failedResp true =
      Except.error (PyErr.assertionError "upstream error body") ∧
    get_dividends "AAPL" failedResp true = Except.ok emptyFrame := by
  refine ⟨by decide, rfl, rfl, ?_, ?_, ?_⟩
  · exact (transport_failure "AAPL" "1d" ⟨false, "err"⟩ failedResp exChart true
      (by decide) rfl rfl).1
  · exact (transport_failure "AAPL" "1d" ⟨false, "err"⟩ failedResp exChart true
      (by decide) rfl rfl).2.1
  · exact (transport_failure "AAPL" "1d" ⟨false, "err"⟩ failedResp exChart true
      (by decide) rfl rfl).2.2

/-- Claim C3 counterexample: `"M12"` contains `M` only in a non-trailing
(leading) position, yet it IS special-cased — the guard is `"M" in s`,
not a trailing-suffix test, and `str.strip` trims the letter from both
ends — so it does not fall through to the base coercion (which would
return the string unchanged) but yields the float 12000000.0. -/
theorem convert_nontrailing_counterexample :
    "M12".toList = ['M', '1', '2'] ∧
    convert_to_numeric "M12" = PyVal.num (toRat 12 0 * ((1000000 : ℕ) : ℚ)) ∧
    toRat 12 0 * ((1000000 : ℕ) : ℚ) = 12000000 ∧
    force_float "M12" = PyVal.str "M12" ∧
    convert_to_numeric "M12" ≠ force_float "M12" := by
  refine ⟨by decide, rfl, by norm_num [toRat], rfl, ?_⟩
  intro hcontra
  exact PyVal.noConfusion
    (hcontra : PyVal.num (toRat 12 0 * ((1000000 : ℕ) : ℚ)) = PyVal.str "M12")

/-- Claim C3 as amended: the second-level normalizer special-cases every
string containing uppercase `M` anywhere (and otherwise every string
containing `B` anywhere), stripping leading and trailing occurrences of
the letter and multiplying by 1e6 / 1e9; a trailing suffix appended to a
letter-free float-convertible numeral multiplies as the spec describes;
only strings containing neither letter fall through to the base
coercion. -/
theorem convert_letter_anywhere (s : String) (m : ℤ) (k : ℕ) :
    (pyContains s 'M' = true →
      convert_to_numeric s = pyMulInt (force_float (pyStrip s 'M')) 1000000) ∧
    (pyContains s 'M' = false → pyContains s 'B' = true →
      convert_to_numeric s = pyMulInt (force_float (pyStrip s 'B')) 1000000000) ∧
    (pyContains s 'M' = false → pyContains s 'B' = false →
      convert_to_numeric s = force_float s) ∧
    (pyContains s 'M' = false → parseDec s = some (m, k) →
      convert_to_numeric (s.push 'M') = PyVal.num (toRat m k * ((1000000 : ℕ) : ℚ))) := by
  refine ⟨?_, ?_, ?_, ?_⟩
  · intro hM
    simp [convert_to_numeric, hM]
  · intro hM hB
    simp [convert_to_numeric, hM, hB]
  · intro hM hB
    simp [convert_to_numeric, hM, hB]
  · intro hM hp
    have hnot : 'M' ∉ s.toList := by
      rw [pyContains] at hM
      simpa using hM
    have h1 : pyContains (s.push 'M') 'M' = true := pyContains_push s 'M'
    rw [convert_to_numeric, if_pos (by simp [h1]), pyStrip_push s 'M' hnot]
    simp [force_float, parseFloat, hp, pyMulInt]

/-- Witness for the amended C3: the letter-free numeral `"12.3"` with a
pushed trailing `M` multiplies to 12.3e6. -/
theorem convert_letter_anywhere_witness :
    pyContains "12.3" 'M' = false ∧ parseDec "12.3" = some (123, 1) ∧
    convert_to_numeric ("12.3".push 'M') =
      PyVal.num (toRat 123 1 * ((1000000 : ℕ) : ℚ)) :=
  ⟨by decide, by decide,
    (convert_letter_anywhere "12.3" 123 1).2.2.2 (by decide) (by decide)⟩

/-- Claim C4: the base coercion returns the parsed float for every
directly float-convertible string and the input unchanged (with no
exception) otherwise; and the normalizer round-trips of the spec hold:
`"12.3M"` ↦ 12300000.0, `"4B"` ↦ 4000000000.0, `"abc"` ↦ `"abc"`,
`"3.5"` ↦ 3.5. -/
theorem numeric_normalizer_contract :
    (∀ (s : String) (m : ℤ) (k : ℕ), parseDec s = some (m, k) →
      force_float s = PyVal.num (toRat m k)) ∧
    (∀ s : String, parseDec s = none → force_float s = PyVal.str s) ∧
    convert_to_numeric "12.3M" = PyVal.num 12300000 ∧
    convert_to_numeric "4B" = PyVal.num 4000000000 ∧
    convert_to_numeric "abc" = PyVal.str "abc" ∧
    convert_to_numeric "3.5" = PyVal.num (7 / 2) := by
  refine ⟨?_, ?_, ?_, ?_, ?_, ?_⟩
  · intro s m k h
    simp [force_float, parseFloat, h]
  · intro s h
    simp [force_float, parseFloat, h]
  · show PyVal.num (toRat 123 1 * ((1000000 : ℕ) : ℚ)) = PyVal.num 12300000
    norm_num [toRat]
  · show PyVal.num (toRat 4 0 * ((1000000000 : ℕ) : ℚ)) = PyVal.num 4000000000
    norm_num [toRat]
  · rfl
  · show PyVal.num (toRat 35 1) = PyVal.num (7 / 2)
    norm_num [toRat]

/-- Witness for C4's contract clauses at the concrete strings `"3.5"`
(float-convertible) and `"abc"` (not). -/
theorem numeric_normalizer_contract_witness :
    parseDec "3.5" = some (35, 1) ∧ force_float "3.5" = PyVal.num (toRat 35 1) ∧
    parseDec "abc" = none ∧ force_float "abc" = PyVal.str "abc" :=
  ⟨by decide, numeric_normalizer_contract.1 "3.5" 35 1 (by decide),
   by decide, numeric_normalizer_contract.2.1 "abc" (by decide)⟩

/-- Claim C10: a string containing uppercase `M` (resp. `B`) whose strip
residue is not float-convertible — here `"12M3"` (resp. `"1B2"`), whose
interior letter survives the strip — makes `force_float` return the
string, and the subsequent Python `str * int` repeats it 1,000,000
(resp. 1,000,000,000) times instead of returning the input unchanged or
a float. -/
theorem interior_letter_repetition :
    pyStrip "12M3" 'M' = "12M3" ∧
    parseDec "12M3" = none ∧
    convert_to_numeric "12M3" = PyVal.str (pyRepeat "12M3" 1000000) ∧
    pyStrip "1B2" 'B' = "1B2" ∧
    parseDec "1B2" = none ∧
    convert_to_numeric "1B2" = PyVal.str (pyRepeat "1B2" 1000000000) :=
  ⟨by decide, by decide, rfl, by decide, by decide, rfl⟩

/-- Claim C5 counterexample: the repaired output of the nested-raw dumps
string still contains a matching `\x7b"raw": ...\x7d` pattern, and a second
application of the repair changes it — the repair is not idempotent on
its own output. -/
theorem repair_not_idempotent :
    repairJson nestedRawJson = " \x7b\"raw\": 1, \"b\": 3\x7d" ∧
    hasRawMatch (repairJson nestedRawJson).toList = true ∧
    repairJson (repairJson nestedRawJson) = "  1" ∧
    repairJson (repairJson nestedRawJson) ≠ repairJson nestedRawJson :=
  ⟨by decide, by decide, by decide, by decide⟩

/-- Claim C5 as amended: the repair is not idempotent in general — a
raw-wrapper nested inside another raw-wrapper's value leaves a residual
pattern that a second pass rewrites — but re-applying the repair is a
no-op on any string in which the substitution pattern no longer matches
and no `\x7b\x7d` substring remains. -/
theorem repair_fixed_of_no_match (s : String)
    (h1 : hasCurlyPair s.toList = false) (h2 : hasRawMatch s.toList = false) :
    repairJson s = s := by
  obtain ⟨l⟩ := s
  have hl : (String.mk l).toList = l := rfl
  rw [hl] at h1 h2
  unfold repairJson rawSub
  rw [hl, replaceCurly_eq_self l h1, rawSubFuel_eq_self l.length l h2]

/-- Witness for the amended C5 at the fully-repaired string `"  1"`. -/
theorem repair_fixed_witness :
    hasCurlyPair "  1".toList = false ∧ hasRawMatch "  1".toList = false ∧
    repairJson "  1" = "  1" :=
  ⟨by decide, by decide, repair_fixed_of_no_match "  1" (by decide) (by decide)⟩

/-- Claim C6: every index timestamp of a price table produced at daily,
weekly or monthly interval has a zero intra-day component (it is a
multiple of 86400 seconds), while at 1-minute interval the timestamps
are passed through unchanged, preserving intraday granularity. -/
theorem day_floor_invariant (ticker : String) (resp : HttpResp) (chart : ChartData)
    (interval : String) (f : Frame) :
    ((interval = "1d" ∨ interval = "1wk" ∨ interval = "1mo") →
      get_data ticker resp chart true interval = Except.ok f →
      ∀ v ∈ f.idx, ∃ t : ℕ, v = PyVal.num t ∧ t % 86400 = 0) ∧
    (get_data ticker resp chart true "1m" = Except.ok f →
      f.idx = chart.timestamp.map fun t => PyVal.num t) := by
  constructor
  · intro hi h
    cases hok : resp.ok with
    | false =>
      rcases hi with rfl | rfl | rfl <;> simp [get_data, hok] at h
    | true =>
      have hidx : f.idx = chart.timestamp.map fun t => PyVal.num (floorDay t) := by
        rcases hi with rfl | rfl | rfl <;>
          · simp [get_data, hok] at h
            rw [← h]
            rfl
      rw [hidx]
      intro v hv
      rw [List.mem_map] at hv
      obtain ⟨t, _, rfl⟩ := hv
      refine ⟨floorDay t, rfl, ?_⟩
      unfold floorDay
      omega
  · intro h
    cases hok : resp.ok with
    | false => simp [get_data, hok] at h
    | true =>
      simp [get_data, hok] at h
      rw [← h]
      rfl

/-- Witness for C6 at a one-bar daily chart whose timestamp 90000 s
(01:00 on 1970-01-02) is floored to 86400 s. -/
theorem day_floor_invariant_witness :
    ("1d" = "1d" ∨ "1d" = "1wk" ∨ "1d" = "1mo") ∧
    get_data "aapl" ⟨true, ""⟩ exChart true "1d" = Except.ok exFrame ∧
    (∀ v ∈ exFrame.idx, ∃ t : ℕ, v = PyVal.num t ∧ t % 86400 = 0) :=
  ⟨Or.inl rfl, rfl,
    (day_floor_invariant "aapl" ⟨true, ""⟩ exChart "1d" exFrame).1 (Or.inl rfl) rfl⟩

/-- Claim C7: for every ticker, optional start/end timestamps and
interval, `build_url` returns the base chart URL concatenated with the
ticker together with the parameter set
`(period1, period2, interval, events = "div,splits")`, where `period2`
defaults to the current time and `period1` defaults to the sentinel
7223400 when the corresponding date is omitted, both as integer Unix
seconds; being a pure function of its inputs, it performs no network
I/O. -/
theorem build_url_spec (ticker interval : String) (now : ℤ) :
    build_url ticker none none interval now =
      (base_url ++ ticker,
        { period1 := 7223400, period2 := now,
          interval := interval.toLower, events := "div,splits" }) ∧
    (∀ s e : ℤ, build_url ticker (some s) (some e) interval now =
      (base_url ++ ticker,
        { period1 := s, period2 := e,
          interval := interval.toLower, events := "div,splits" })) ∧
    (∀ s : ℤ, build_url ticker (some s) none interval now =
      (base_url ++ ticker,
        { period1 := s, period2 := now,
          interval := interval.toLower, events := "div,splits" })) ∧
    (∀ e : ℤ, build_url ticker none (some e) interval now =
      (base_url ++ ticker,
        { period1 := 7223400, period2 := e,
          interval := interval.toLower, events := "div,splits" })) :=
  ⟨rfl, fun _ _ => rfl, fun _ => rfl, fun _ => rfl⟩

/-- Claim C8: when the upstream-reported total count equals the first
page size (100), the paginated earnings fetch terminates after exactly
one further recursive call: the entry call at offset 0 collects the
first page's rows, and the single recursive call at offset 100 (which
is ≥ the count) returns the empty list, stopping the scan — with the
result independent of any extra fuel. -/
theorem pagination_terminates (pages : ℕ → EarningsPage)
    (h : (pages 0).total = 100) :
    (∀ fuel, get_earnings_for_date pages (fuel + 2) 0 1 = some ((pages 0).rows, 1)) ∧
    get_earnings_for_date pages 1 100 100 = some ([], 0) := by
  constructor
  · intro fuel
    rw [get_earnings_for_date]
    simp only [h]
    rw [get_earnings_for_date]
    simp
  · rw [get_earnings_for_date]
    simp

/-- Witness for C8 at the constant oracle reporting a total of 100. -/
theorem pagination_terminates_witness :
    (constPages 0).total = 100 ∧
    get_earnings_for_date constPages 2 0 1 = some (["AAPL"], 1) :=
  ⟨rfl, (pagination_terminates constPages rfl).1 0⟩

/-- Claim C9: flattening an empty sequence of Period Records returns the
empty table and raises nothing: the frame built from no records is
empty, so the drop-`maxAge` step and every other column operation are
skipped. -/
theorem empty_store_flattening :
    parse_table [] = Except.ok emptyFrame ∧
    frameEmpty (mkFrameOfRecords []) = true :=
  ⟨rfl, rfl⟩

end YahooFin
